import Mathlib

/-!
Verification of the parameter-validation core of
`src/biokbase/narrative/jobmanager/methodmanager.py` (class `MethodManager`).

The embedding is shallow: Python scalar values become the inductive `PyVal`,
Python dicts of keyword arguments become association lists, raised exceptions
become `Except.error` carrying the exception message, and the three external
collaborators (the regex engine `re.match`, the workspace client
`ws_client.get_object_info_new`, and the builtin `float()` applied to strings)
become fields of an `Env` record, so that the validation logic itself is a
pure, executable function of its inputs.

Numeric values are modelled as rationals; Python integers as `Int`.  Python
`bool` is a subclass of `int`, so `isinstance(v, int)` is true for booleans;
the model mirrors that.
-/

set_option maxRecDepth 16384

namespace Narrative

/-- A Python value as it can appear among the keyword arguments of
`run_method`: a string, an integer, a boolean (which Python treats as an
integer), a float, or a list.  Floats are modelled as rationals. -/
inductive PyVal where
  | str : String → PyVal
  | int : Int → PyVal
  | bool : Bool → PyVal
  | float : ℚ → PyVal
  | list : List PyVal → PyVal

/-- Python truthiness, as used by `kwargs.get(p["id"], None)` tests:
empty strings, zero numbers, `False`, empty lists and `None` (modelled one
level up by `Option`) are falsy. -/
def PyVal.truthy : PyVal → Bool
  | .str s => !s.isEmpty
  | .int n => n != 0
  | .bool b => b
  | .float q => q != 0
  | .list vs => !vs.isEmpty

/-- `isinstance(value, basestring)`. -/
def PyVal.isStr : PyVal → Bool
  | .str _ => true
  | _ => false

/-- `isinstance(value, int)`.  In Python, `bool` is a subclass of `int`. -/
def PyVal.isInt : PyVal → Bool
  | .int _ => true
  | .bool _ => true
  | _ => false

/-- `isinstance(value, float)`. -/
def PyVal.isFloat : PyVal → Bool
  | .float _ => true
  | _ => false

/-- The numeric content of a value, when it has one (ints, bools and floats
all compare and convert numerically in Python). -/
def PyVal.numVal : PyVal → Option ℚ
  | .int n => some (n : ℚ)
  | .bool b => some (if b then 1 else 0)
  | .float q => some q
  | _ => none

/-- Rendering of a rational in error messages.  Integral values print as the
bare integer; the source stores integer bounds (`min_int`/`max_int`) exactly
so, and the decimal rendering Python gives non-integral floats is
approximated by a fraction (only the text of messages is affected). -/
def numStr (q : ℚ) : String :=
  if q.den == 1 then toString q.num else toString q.num ++ "/" ++ toString q.den

/-- Python `str(value)`, as used by `"...".format(value)` in the error
messages.  Lists never reach a format site: they are rejected by the scalar
check with a constant message first, so their rendering is immaterial. -/
def PyVal.pyStr : PyVal → String
  | .str s => s
  | .int n => toString n
  | .bool b => if b then "True" else "False"
  | .float q => if q.den == 1 then toString q.num ++ ".0" else numStr q
  | .list _ => "[...]"

/-- Python `==` as used by the membership test `value not in allowed_values`.
Numbers compare by numeric value across `int`/`bool`/`float`; strings compare
by content; a number never equals a string.  At the single call site the
left operand has already passed the scalar filter, so the list/list case
(element-wise in Python) never arises and is rendered as `false`. -/
def pyEq (a b : PyVal) : Bool :=
  match a.numVal, b.numVal with
  | some x, some y => x == y
  | none, none =>
    match a, b with
    | .str s, .str t => s == t
    | _, _ => false
  | _, _ => false

/-- The external collaborators of the validator, packaged as one record.
`reMatch pat s` models the truthiness of Python `re.match(pat, s)`;
`lookup ws v` models `ws_client.get_object_info_new({"objects": [...]})[0]`,
returning the looked-up type string `info[2]` or the message of the raised
exception; `float_of_str` models the builtin `float()` applied to a string
(`None` when the conversion raises); `workspace` models
`system_variable("workspace")`. -/
structure Env where
  reMatch : String → String → Bool
  lookup : String → PyVal → Except String String
  float_of_str : String → Option ℚ
  workspace : String

/-- Python `float(value)`: exact on ints, bools and floats, delegated to the
environment on strings, failing on lists. -/
def pyFloat (env : Env) : PyVal → Option ℚ
  | .str s => env.float_of_str s
  | .int n => some (n : ℚ)
  | .bool b => some (if b then 1 else 0)
  | .float q => some q
  | .list _ => none

/-- The canonical parameter descriptor: the dict `p_info` built per raw
parameter in `MethodManager._method_params`.  Optional dict keys become
`Option` fields. -/
structure ParamInfo where
  id : String
  optional : Bool
  short_hint : String
  description : String
  type : String
  is_output : Bool
  allowed_values : Option (List PyVal)
  allowed_types : Option (List String)
  min_val : Option ℚ
  max_val : Option ℚ
  regex_constraint : Option (List String)
  allow_multiple : Bool

/-- The `text_options` sub-record of a raw parameter, with exactly the keys
`_method_params` reads. -/
structure TextOptions where
  is_output_name : Option Bool
  valid_ws_types : Option (List String)
  validate_as : Option String
  min_float : Option ℚ
  min_int : Option Int
  max_float : Option ℚ
  max_int : Option Int
  regex_constraint : Option (List String)

/-- A raw parameter record of a specification document, with exactly the
fields `_method_params` reads.  `dropdown_options` carries the list of the
option values `opt["value"]` of `dropdown_options.options`. -/
structure RawParam where
  id : String
  optional : Int
  short_hint : String
  description : String
  field_type : String
  dropdown_options : List PyVal
  text_options : Option TextOptions
  allow_multiple : Int

/-- Python `str.lower()`, as used by the dropdown field-type comparison:
char-wise ASCII lowering.  (`String.toLower` computes the same string but
is not definitionally reducible, and the embedding stays evaluable.) -/
def strLower (s : String) : String := String.mk (s.data.map Char.toLower)

/-- The body of the `for p in spec["parameters"]` loop of
`MethodManager._method_params`: build one `p_info` dict from one raw
parameter record, mirroring the source order of assignments
(`min_int` overwrites `min_float`, `max_int` overwrites `max_float`,
`validate_as` overwrites `field_type`, and `regex_constraint` is kept only
when the raw list is non-empty). -/
def build_p_info (p : RawParam) : ParamInfo :=
  let optional := p.optional != 0
  let allowed_values :=
    if strLower p.field_type == "dropdown" then some p.dropdown_options else none
  match p.text_options with
  | none =>
    { id := p.id, optional := optional, short_hint := p.short_hint,
      description := p.description, type := p.field_type, is_output := false,
      allowed_values := allowed_values, allowed_types := none,
      min_val := none, max_val := none, regex_constraint := none,
      allow_multiple := p.allow_multiple == 1 }
  | some opts =>
    { id := p.id, optional := optional, short_hint := p.short_hint,
      description := p.description,
      type := opts.validate_as.getD p.field_type,
      is_output := opts.is_output_name.getD false,
      allowed_values := allowed_values,
      allowed_types := opts.valid_ws_types,
      min_val := match opts.min_int with
        | some n => some (n : ℚ)
        | none => opts.min_float,
      max_val := match opts.max_int with
        | some n => some (n : ℚ)
        | none => opts.max_float,
      regex_constraint := match opts.regex_constraint with
        | some l => if l.length != 0 then some l else none
        | none => none,
      allow_multiple := p.allow_multiple == 1 }

/-- The sort key comparison of `sorted(params, key=lambda p: (p["optional"],
p["is_output"]))`: lexicographic on the pair of booleans, `False` before
`True`. -/
def paramLe (a b : ParamInfo) : Bool :=
  (!a.optional && b.optional) ||
    (a.optional == b.optional && (!a.is_output || b.is_output))

/-- `paramLe` as a decidable relation, for the stable sort. -/
def paramLeP (a b : ParamInfo) : Prop := paramLe a b = true

instance : DecidableRel paramLeP := fun a b => by
  unfold paramLeP; infer_instance

/-- `MethodManager._method_params`, applied to the `parameters` field of a
specification document: build every `p_info` and return
`sorted(params, key=lambda p: (p["optional"], p["is_output"]))`.  Python
`sorted` is a stable sort; any stable sort has the same output, and the
model uses the stable `List.insertionSort`. -/
def _method_params (parameters : List RawParam) : List ParamInfo :=
  List.insertionSort paramLeP (parameters.map build_p_info)

/-!
`MethodManager._validate_param_value`, split into one definition per check
site of the source, sequenced in source order by `_validate_param_value`
itself.  Each check answers `some message` where the source has a
`return "<message>"` and `none` where control falls through.
-/

/-- Lines 281-292: the scalar filter (`basestring`/`int`/`float`) and the
`int`/`float` type checks. -/
def typecheckError (param : ParamInfo) (value : PyVal) : Option String :=
  if !(value.isStr || value.isInt || value.isFloat) then
    some "input type not supported - only str, int, float, or list"
  else if param.type == "int" && !value.isInt then
    some ("Given value " ++ value.pyStr ++ " is not an int")
  else if param.type == "float" && !(value.isFloat || value.isInt) then
    some ("Given value " ++ value.pyStr ++ " is not a number")
  else none

/-- Lines 294-305: the workspace-object check.  Runs only when the
descriptor has `allowed_types` and is not an output; a raised lookup
exception is caught and converted into the not-found message; on success
the reported type `info[2]` must `re.match` some pattern (the source loop
sets `type_ok` without breaking, which is `List.any`). -/
def wsTypeError (env : Env) (param : ParamInfo) (value : PyVal)
    (workspace : String) : Option String :=
  match param.allowed_types with
  | some ts =>
    if !param.is_output then
      match env.lookup workspace value with
      | .error e =>
        some ("Data object named " ++ value.pyStr ++
          " not found with this Narrative. (additional info: " ++ e ++ ")")
      | .ok typeStr =>
        if !(ts.any fun t => env.reMatch t typeStr) then
          some ("Type of data object, " ++ typeStr ++
            ", does not match allowed types")
        else none
    else none
  | none => none

/-- Lines 307-310: the `allowed_values` membership check
(`value not in param["allowed_values"]`, Python `==` semantics). -/
def allowedValuesError (param : ParamInfo) (value : PyVal) : Option String :=
  match param.allowed_values with
  | some avs =>
    if !(avs.any fun x => pyEq value x) then
      some "Given value is not permitted in the allowed set."
    else none
  | none => none

/-- The message of a failed `float(value)` conversion, lines 318 and 325. -/
def mustBeNumberMsg (value : PyVal) : String :=
  "Given value " ++ value.pyStr ++ " must be a number"

/-- The out-of-range message of the `max_val` check, line 316. -/
def shouldBeLeMsg (value : PyVal) (mx : ℚ) : String :=
  "Given value " ++ value.pyStr ++ " should be <= " ++ numStr mx

/-- The out-of-range message of the `min_val` check, line 323. -/
def shouldBeGeMsg (value : PyVal) (mn : ℚ) : String :=
  "Given value " ++ value.pyStr ++ " should be >= " ++ numStr mn

/-- Lines 313-318: the `max_val` check.  `float(value)` raising is caught by
the bare `except` and reported as the conversion message. -/
def maxValError (env : Env) (param : ParamInfo) (value : PyVal) :
    Option String :=
  match param.max_val with
  | some mx =>
    match pyFloat env value with
    | some q => if q > mx then some (shouldBeLeMsg value mx) else none
    | none => some (mustBeNumberMsg value)
  | none => none

/-- Lines 320-325: the `min_val` check, symmetric to `max_val`. -/
def minValError (env : Env) (param : ParamInfo) (value : PyVal) :
    Option String :=
  match param.min_val with
  | some mn =>
    match pyFloat env value with
    | some q => if q < mn then some (shouldBeGeMsg value mn) else none
    | none => some (mustBeNumberMsg value)
  | none => none

/-- The message of the NameError the regex branch raises (Python renders it
with quotes around the name; quoting is elided here). -/
def nameErrorMsg : String :=
  "NameError: global name regex_constraint is not defined"

/-- Lines 327-331: the regex check.  The source iterates
`for regex in regex_constraint`, but `regex_constraint` is an unbound name
(the descriptor field is `param["regex_constraint"]`), so whenever the key
is present the statement raises a NameError before any iteration. -/
def regexCheck (param : ParamInfo) : Except String Unit :=
  if param.regex_constraint.isSome then .error nameErrorMsg else .ok ()

/-- `MethodManager._validate_param_value`: the checks in source order, first
triggered message wins; `Except.error` models an uncaught Python
exception. -/
def _validate_param_value (env : Env) (param : ParamInfo) (value : PyVal)
    (workspace : String) : Except String (Option String) :=
  match typecheckError param value with
  | some e => .ok (some e)
  | none =>
  match wsTypeError env param value workspace with
  | some e => .ok (some e)
  | none =>
  match allowedValuesError param value with
  | some e => .ok (some e)
  | none =>
  match maxValError env param value with
  | some e => .ok (some e)
  | none =>
  match minValError env param value with
  | some e => .ok (some e)
  | none =>
  match regexCheck param with
  | .error e => .error e
  | .ok _ => .ok none

/-- The element loop of `MethodManager._check_parameter`: validate each list
element, appending each truthy (non-empty) error message to `error_list`;
an exception raised on any element propagates and discards the list. -/
def collect_element_errors (env : Env) (param : ParamInfo)
    (workspace : String) : List PyVal → Except String (List String)
  | [] => .ok []
  | v :: rest =>
    match _validate_param_value env param v workspace with
    | .error e => .error e
    | .ok errOpt =>
      match collect_element_errors env param workspace rest with
      | .error e => .error e
      | .ok l =>
        match errOpt with
        | some err => .ok (if !err.isEmpty then err :: l else l)
        | none => .ok l

/-- `MethodManager._check_parameter`: when the descriptor allows multiples
and the value is a list, validate element-wise and comma-join the collected
errors; otherwise validate the single value. -/
def _check_parameter (env : Env) (param : ParamInfo) (value : PyVal)
    (workspace : String) : Except String (Option String) :=
  if param.allow_multiple then
    match value with
    | .list vs =>
      match collect_element_errors env param workspace vs with
      | .error e => .error e
      | .ok error_list =>
        if error_list.length != 0 then
          .ok (some (String.intercalate ", " error_list))
        else .ok none
    | _ => _validate_param_value env param value workspace
  else _validate_param_value env param value workspace

/-!
`MethodManager.run_method`, the validation entry point.  The method store
is modelled as a function from tag and method id to the `parameters` field
of the stored specification document (`method_specs[tag][method_id]`), and
the keyword arguments as an association list.
-/

/-- Modelled from the spec: `method_version_tags` lives in `method_util`,
which is not under src/; spec section 6 fixes the tags as exactly
"release", "beta", "dev", case-sensitive. -/
def method_version_tags : List String := ["release", "beta", "dev"]

/-- Modelled from the spec: `check_tag` lives in `method_util`, which is not
under src/; spec section 6 says a tag is validated against the enumerated
set before use. -/
def check_tag (tag : String) : Bool := method_version_tags.contains tag

/-- `MethodManager.check_method` with `raise_exception=True`, as called at
the top of `run_method`: an invalid tag or an unknown method id raises.
The message of the invalid-tag ValueError is raised inside `method_util`
(not under src/) and is modelled from the spec. -/
def check_method (specs : String → String → Option (List RawParam))
    (method_id tag : String) : Except String Unit :=
  if !check_tag tag then
    .error ("Can not find tag " ++ tag)
  else if (specs tag method_id).isNone then
    .error ("Unknown method id \"" ++ method_id ++ "\" tagged as \"" ++
      tag ++ "\"")
  else .ok ()

/-- Truthiness of `kwargs.get(key, None)`: `None` (an absent key) is falsy,
a present value contributes its own truthiness. -/
def truthyOpt : Option PyVal → Bool
  | none => false
  | some v => v.truthy

/-- `json.dumps` on a list of plain strings (escaping of special characters
inside the strings is elided). -/
def jsonDumpsList (xs : List String) : String :=
  "[" ++ String.intercalate ", " (xs.map fun s => "\"" ++ s ++ "\"") ++ "]"

/-- The message of the missing-required-parameters ValueError, line 236. -/
def missingParamsMsg (ids : List String) (method_id tag : String) : String :=
  "Missing required parameters " ++ jsonDumpsList ids ++
    " - try executing method_usage(\"" ++ method_id ++ "\", tag=\"" ++
    tag ++ "\") for more information"

/-- The message of the unknown-parameters ValueError, line 244. -/
def unknownParamsMsg (ids : List String) (method_id tag : String) : String :=
  "Unknown parameters " ++ jsonDumpsList ids ++
    " - maybe something was misspelled?\nexecute method_usage(\"" ++
    method_id ++ "\", tag=\"" ++ tag ++ "\") for more information"

/-- The message of the parameter-value-errors ValueError, line 257. -/
def paramErrorsMsg (errs : List String) : String :=
  "Parameter value errors found! " ++ jsonDumpsList errs

/-- The presence loop of `run_method`, lines 231-234: the ids of the
non-optional descriptors whose supplied value is absent or falsy. -/
def missing_of (spec_params : List ParamInfo)
    (kwargs : List (String × PyVal)) : List String :=
  (spec_params.filter fun p =>
    !p.optional && !truthyOpt (List.lookup p.id kwargs)).map fun p => p.id

/-- The unknown-parameter loop of `run_method`, lines 239-242: the supplied
keys that match no descriptor id. -/
def extra_of (spec_params : List ParamInfo)
    (kwargs : List (String × PyVal)) : List String :=
  (kwargs.map Prod.fst).filter fun k =>
    !(spec_params.map fun p => p.id).contains k

/-- The value loop of `run_method`, lines 250-255: for each descriptor whose
id is a supplied key, run `_check_parameter` and record
`"<id> - <message>"` per failing parameter; a raised exception
propagates. -/
def collect_param_errors (env : Env) (workspace : String)
    (kwargs : List (String × PyVal)) :
    List ParamInfo → Except String (List String)
  | [] => .ok []
  | p :: rest =>
    match List.lookup p.id kwargs with
    | some v =>
      match _check_parameter env p v workspace with
      | .error e => .error e
      | .ok errOpt =>
        match collect_param_errors env workspace kwargs rest with
        | .error e => .error e
        | .ok l =>
          match errOpt with
          | some err => .ok ((p.id ++ " - " ++ err) :: l)
          | none => .ok l
    | none => collect_param_errors env workspace kwargs rest

/-- `MethodManager.run_method` up to (and excluding) job submission: the
intro tests, the version precondition, and the three validation phases,
each raising a ValueError carrying its aggregated message. -/
def run_method (env : Env)
    (specs : String → String → Option (List RawParam))
    (method_id tag : String) (version : Option String)
    (kwargs : List (String × PyVal)) : Except String Unit :=
  match check_method specs method_id tag with
  | .error e => .error e
  | .ok _ =>
  if version.isSome && tag != "release" then
    .error "Method versions only apply to released method modules!"
  else
    let spec_params := _method_params ((specs tag method_id).getD [])
    let missing_params := missing_of spec_params kwargs
    if missing_params.length != 0 then
      .error (missingParamsMsg missing_params method_id tag)
    else
      let extra_params := extra_of spec_params kwargs
      if extra_params.length != 0 then
        .error (unknownParamsMsg extra_params method_id tag)
      else
        match collect_param_errors env env.workspace kwargs spec_params with
        | .error e => .error e
        | .ok param_errors =>
          if param_errors.length != 0 then
            .error (paramErrorsMsg param_errors)
          else .ok ()

/-!
Helper lemmas and concrete fixtures shared by the claim theorems below.
-/

instance : IsTotal ParamInfo paramLeP := by
  constructor
  intro a b
  unfold paramLeP paramLe
  generalize a.optional = p1
  generalize b.optional = p2
  generalize a.is_output = q1
  generalize b.is_output = q2
  revert p1 p2 q1 q2
  decide

instance : IsTrans ParamInfo paramLeP := by
  constructor
  intro a b c
  unfold paramLeP paramLe
  generalize a.optional = p1
  generalize b.optional = p2
  generalize c.optional = p3
  generalize a.is_output = q1
  generalize b.is_output = q2
  generalize c.is_output = q3
  revert p1 p2 p3 q1 q2 q3
  decide

theorem bne_zero_of_ne_nil {α : Type} {l : List α} (h : l ≠ []) :
    (l.length != 0) = true := by
  cases l with
  | nil => exact absurd rfl h
  | cons a t => simp

theorem run_method_eq_missing (env : Env)
    (specs : String → String → Option (List RawParam))
    (method_id tag : String) (kwargs : List (String × PyVal))
    (hok : check_method specs method_id tag = .ok ())
    (h : missing_of (_method_params ((specs tag method_id).getD [])) kwargs ≠ []) :
    run_method env specs method_id tag none kwargs =
      .error (missingParamsMsg
        (missing_of (_method_params ((specs tag method_id).getD [])) kwargs)
        method_id tag) := by
  unfold run_method
  rw [hok]
  simp [bne_zero_of_ne_nil h]

theorem run_method_eq_unknown (env : Env)
    (specs : String → String → Option (List RawParam))
    (method_id tag : String) (kwargs : List (String × PyVal))
    (hok : check_method specs method_id tag = .ok ())
    (hmiss : missing_of (_method_params ((specs tag method_id).getD [])) kwargs = [])
    (hext : extra_of (_method_params ((specs tag method_id).getD [])) kwargs ≠ []) :
    run_method env specs method_id tag none kwargs =
      .error (unknownParamsMsg
        (extra_of (_method_params ((specs tag method_id).getD [])) kwargs)
        method_id tag) := by
  unfold run_method
  rw [hok]
  simp [hmiss, bne_zero_of_ne_nil hext]

theorem run_method_eq_values (env : Env)
    (specs : String → String → Option (List RawParam))
    (method_id tag : String) (kwargs : List (String × PyVal))
    (hok : check_method specs method_id tag = .ok ())
    (hmiss : missing_of (_method_params ((specs tag method_id).getD [])) kwargs = [])
    (hext : extra_of (_method_params ((specs tag method_id).getD [])) kwargs = []) :
    run_method env specs method_id tag none kwargs =
      (match collect_param_errors env env.workspace kwargs
          (_method_params ((specs tag method_id).getD [])) with
       | .error e => .error e
       | .ok param_errors =>
         if param_errors.length != 0 then .error (paramErrorsMsg param_errors)
         else .ok ()) := by
  unfold run_method
  rw [hok]
  simp [hmiss, hext]

theorem lookup_eq_none_of_not_mem {k : String} :
    ∀ {l : List (String × PyVal)}, k ∉ l.map Prod.fst → List.lookup k l = none
  | [], _ => rfl
  | a :: l, h => by
    have hk : k ≠ a.1 := by
      intro he
      exact h (by simp [he])
    have ht : k ∉ l.map Prod.fst := by
      intro hm
      exact h (by simp [hm])
    simp [List.lookup, beq_eq_false_iff_ne.mpr hk, lookup_eq_none_of_not_mem ht]

theorem lookup_eraseP_ne {k p : String} (h : k ≠ p) :
    ∀ (l : List (String × PyVal)),
      List.lookup k (l.eraseP fun kv => kv.1 == p) = List.lookup k l
  | [] => rfl
  | a :: l => by
    by_cases ha : a.1 = p
    · have hk : (k == a.1) = false := beq_eq_false_iff_ne.mpr (ha ▸ h)
      simp [List.eraseP_cons, beq_iff_eq.mpr ha, List.lookup, hk]
    · have ha2 : (a.1 == p) = false := beq_eq_false_iff_ne.mpr ha
      simp only [List.eraseP_cons, ha2, cond_false, List.lookup]
      cases hk : k == a.1 with
      | true => rfl
      | false => exact lookup_eraseP_ne h l

theorem lookup_eraseP_self {p : String} :
    ∀ {l : List (String × PyVal)}, (l.map Prod.fst).Nodup →
      List.lookup p (l.eraseP fun kv => kv.1 == p) = none
  | [], _ => rfl
  | a :: l, hnd => by
    rw [List.map_cons, List.nodup_cons] at hnd
    by_cases ha : a.1 = p
    · have hp : p ∉ l.map Prod.fst := ha ▸ hnd.1
      simp [List.eraseP_cons, beq_iff_eq.mpr ha, lookup_eq_none_of_not_mem hp]
    · have ha2 : (a.1 == p) = false := beq_eq_false_iff_ne.mpr ha
      have hk : (p == a.1) = false := beq_eq_false_iff_ne.mpr (Ne.symm ha)
      simp only [List.eraseP_cons, ha2, cond_false, List.lookup, hk]
      exact lookup_eraseP_self hnd.2

theorem missing_of_eraseP (sp : List ParamInfo)
    (kwargs : List (String × PyVal)) (pid : String)
    (hfalsy : truthyOpt (List.lookup pid kwargs) = false)
    (hnd : (kwargs.map Prod.fst).Nodup) :
    missing_of sp (kwargs.eraseP fun kv => kv.1 == pid) =
      missing_of sp kwargs := by
  unfold missing_of
  congr 1
  apply List.filter_congr
  intro p _
  by_cases hid : p.id = pid
  · rw [hid, lookup_eraseP_self hnd]
    cases hl : List.lookup pid kwargs with
    | none => rfl
    | some v =>
      rw [hl] at hfalsy
      simp only [truthyOpt] at hfalsy
      simp [truthyOpt, hfalsy]
  · rw [lookup_eraseP_ne hid kwargs]

theorem append_mustBeNumber_ne_le (a n : String) :
    a ++ " must be a number" ≠ a ++ (" should be <= " ++ n) := by
  intro h
  have h1 : (" must be a number" : String).data = (" should be <= " ++ n).data :=
    List.append_cancel_left (by
      have h0 := congrArg String.data h
      simpa only [String.data_append] using h0)
  rw [String.data_append] at h1
  have h2 : (" must be a number" : String).data =
      ' ' :: 'm' :: "ust be a number".data := rfl
  have h3 : (" should be <= " : String).data =
      ' ' :: 's' :: "hould be <= ".data := rfl
  rw [h2, h3] at h1
  simp at h1

theorem append_mustBeNumber_ne_ge (a n : String) :
    a ++ " must be a number" ≠ a ++ (" should be >= " ++ n) := by
  intro h
  have h1 : (" must be a number" : String).data = (" should be >= " ++ n).data :=
    List.append_cancel_left (by
      have h0 := congrArg String.data h
      simpa only [String.data_append] using h0)
  rw [String.data_append] at h1
  have h2 : (" must be a number" : String).data =
      ' ' :: 'm' :: "ust be a number".data := rfl
  have h3 : (" should be >= " : String).data =
      ' ' :: 's' :: "hould be >= ".data := rfl
  rw [h2, h3] at h1
  simp at h1

theorem validate_no_raise (env : Env) (param : ParamInfo) (value : PyVal)
    (ws : String) (h : param.regex_constraint = none) :
    ∃ o, _validate_param_value env param value ws = Except.ok o := by
  have hr : regexCheck param = .ok () := by simp [regexCheck, h]
  unfold _validate_param_value
  rw [hr]
  repeat' split
  all_goals simp_all

/-- The list of truthy per-element error messages the element loop of
`_check_parameter` accumulates when no element raises. -/
def element_errs (env : Env) (param : ParamInfo) (ws : String) :
    List PyVal → List String
  | [] => []
  | v :: rest =>
    match _validate_param_value env param v ws with
    | .ok (some e) =>
      if !e.isEmpty then e :: element_errs env param ws rest
      else element_errs env param ws rest
    | _ => element_errs env param ws rest

theorem collect_element_errors_eq (env : Env) (param : ParamInfo)
    (ws : String) (h : param.regex_constraint = none) :
    ∀ vs, collect_element_errors env param ws vs =
      .ok (element_errs env param ws vs)
  | [] => rfl
  | v :: rest => by
    obtain ⟨o, ho⟩ := validate_no_raise env param v ws h
    unfold collect_element_errors element_errs
    rw [ho, collect_element_errors_eq env param ws h rest]
    cases o with
    | none => rfl
    | some e => by_cases he : e.isEmpty <;> simp [he]

/-- A concrete environment for witnesses: no pattern matches, every lookup
raises, no string converts to a float. -/
def env0 : Env :=
  { reMatch := fun _ _ => false, lookup := fun _ _ => .error "no workspace",
    float_of_str := fun _ => none, workspace := "ws1" }

/-- Like `env0` but every regex matches every string. -/
def envTrue : Env := { env0 with reMatch := fun _ _ => true }

/-- A raw text parameter with no options. -/
def rawText (id0 : String) (opt : Int) : RawParam :=
  { id := id0, optional := opt, short_hint := "", description := "",
    field_type := "text", dropdown_options := [], text_options := none,
    allow_multiple := 0 }

/-- A plain text descriptor with no constraints. -/
def textParam (id0 : String) : ParamInfo :=
  { id := id0, optional := false, short_hint := "", description := "",
    type := "text", is_output := false, allowed_values := none,
    allowed_types := none, min_val := none, max_val := none,
    regex_constraint := none, allow_multiple := false }

/-!
## Claim C2 (code_bug)
-/

/-- A descriptor whose `regex_constraint` is the one-pattern list `["a"]`. -/
def regexParam : ParamInfo := { textParam "r" with regex_constraint := some ["a"] }

/-- Claim C2 expects: with a non-empty `regex_constraint`, the value
validator errors iff the value fails some pattern, and the check itself
never raises.  The code instead iterates the unbound name
`regex_constraint` (not `param["regex_constraint"]`), raising a NameError
whenever the field is present.  At the failing input - the value "aaa",
which matches the single pattern "a" under an environment where every
pattern matches - the validator raises instead of validating cleanly. -/
theorem C2_regex_check_raises :
    _validate_param_value envTrue regexParam (PyVal.str "aaa") "ws1" =
      .error nameErrorMsg := rfl

/-!
## Claim C8 (confirmed)
-/

/-- Claim C8: calling the entry point with a version on a valid non-release
tag of a known method raises the version precondition error immediately,
for every argument mapping, before any presence, unknown-parameter or
value-level check contributes anything. -/
theorem C8_version_precondition (env : Env)
    (specs : String → String → Option (List RawParam))
    (method_id tag : String) (version : Option String)
    (kwargs : List (String × PyVal))
    (ht : check_tag tag = true)
    (hm : (specs tag method_id).isSome = true)
    (hv : version.isSome = true)
    (hr : tag ≠ "release") :
    run_method env specs method_id tag version kwargs =
      .error "Method versions only apply to released method modules!" := by
  have hok : check_method specs method_id tag = .ok () := by
    cases hs : specs tag method_id with
    | none => rw [hs] at hm; simp at hm
    | some ps => simp [check_method, ht, hs]
  unfold run_method
  rw [hok]
  simp [hv, bne_iff_ne.mpr hr]

/-- A store carrying the method "m" with one required text parameter "a"
under every tag. -/
def allTagSpecs : String → String → Option (List RawParam) :=
  fun _ mid => if mid == "m" then some [rawText "a" 0] else none

theorem C8_version_precondition_witness :
    check_tag "beta" = true ∧ (allTagSpecs "beta" "m").isSome = true ∧
    (some "1.0.0").isSome = true ∧ "beta" ≠ "release" ∧
    run_method env0 allTagSpecs "m" "beta" (some "1.0.0")
        [("a", PyVal.str "x")] =
      .error "Method versions only apply to released method modules!" :=
  ⟨rfl, rfl, rfl, by decide,
    C8_version_precondition env0 allTagSpecs "m" "beta" (some "1.0.0")
      [("a", PyVal.str "x")] rfl rfl rfl (by decide)⟩

/-!
## Claim C4 (confirmed)
-/

/-- An int-typed descriptor with no other constraints. -/
def intParam : ParamInfo := { textParam "i" with type := "int" }

/-- A float-typed descriptor with no other constraints. -/
def floatParam : ParamInfo := { textParam "f" with type := "float" }

/-- Claim C4: the value validator rejects non-scalar values outright; an
`int` descriptor errors on any non-integer scalar; a `float` descriptor
accepts integers and floats but errors on strings; and any other descriptor
type (text included) lets all three scalar kinds through the type check. -/
theorem C4_type_check (param : ParamInfo) (value : PyVal) :
    ((value.isStr || value.isInt || value.isFloat) = false →
      ∀ env ws, _validate_param_value env param value ws =
        .ok (some "input type not supported - only str, int, float, or list"))
    ∧ ((value.isStr || value.isInt || value.isFloat) = true →
        param.type = "int" → value.isInt = false →
        ∀ env ws, _validate_param_value env param value ws =
          .ok (some ("Given value " ++ value.pyStr ++ " is not an int")))
    ∧ (param.type = "float" → value.isStr = true →
        ∀ env ws, _validate_param_value env param value ws =
          .ok (some ("Given value " ++ value.pyStr ++ " is not a number")))
    ∧ (param.type = "int" → value.isInt = true →
        typecheckError param value = none)
    ∧ (param.type = "float" → (value.isFloat || value.isInt) = true →
        typecheckError param value = none)
    ∧ (param.type ≠ "int" → param.type ≠ "float" →
        (value.isStr || value.isInt || value.isFloat) = true →
        typecheckError param value = none) := by
  refine ⟨?_, ?_, ?_, ?_, ?_, ?_⟩
  · intro h env ws
    simp [_validate_param_value, typecheckError, h]
  · intro h1 h2 h3 env ws
    cases value <;> simp_all [_validate_param_value, typecheckError,
      PyVal.isStr, PyVal.isInt, PyVal.isFloat]
  · intro h1 h2 env ws
    cases value <;> simp_all [_validate_param_value, typecheckError,
      PyVal.isStr, PyVal.isInt, PyVal.isFloat]
  · intro h1 h2
    simp [typecheckError, h1, h2]
  · intro h1 h2
    cases value <;> simp_all [typecheckError,
      PyVal.isStr, PyVal.isInt, PyVal.isFloat]
  · intro h1 h2 h3
    simp [typecheckError, h3, beq_eq_false_iff_ne.mpr h1,
      beq_eq_false_iff_ne.mpr h2]

theorem C4_type_check_witness :
    _validate_param_value env0 (textParam "p") (PyVal.list []) "ws1" =
      .ok (some "input type not supported - only str, int, float, or list")
    ∧ _validate_param_value env0 intParam (PyVal.float 2) "ws1" =
      .ok (some ("Given value " ++ (PyVal.float 2).pyStr ++ " is not an int"))
    ∧ _validate_param_value env0 floatParam (PyVal.str "abc") "ws1" =
      .ok (some ("Given value " ++ (PyVal.str "abc").pyStr ++ " is not a number"))
    ∧ typecheckError floatParam (PyVal.int 3) = none
    ∧ typecheckError (textParam "p") (PyVal.float 1) = none :=
  ⟨(C4_type_check (textParam "p") (PyVal.list [])).1 rfl env0 "ws1",
   (C4_type_check intParam (PyVal.float 2)).2.1 rfl rfl rfl env0 "ws1",
   (C4_type_check floatParam (PyVal.str "abc")).2.2.1 rfl rfl env0 "ws1",
   (C4_type_check floatParam (PyVal.int 3)).2.2.2.2.1 rfl rfl,
   (C4_type_check (textParam "p") (PyVal.float 1)).2.2.2.2.2
     (by decide) (by decide) rfl⟩

/-!
## Claim C6 (confirmed)
-/

/-- Claim C6: with `min_val`/`max_val` set, a value whose float conversion
equals the bound is accepted (bounds are inclusive), a value converting
beyond the bound yields the out-of-range message, and a value that does not
convert yields the distinct conversion message; when the earlier checks
pass, the triggered bound message is exactly what the validator returns. -/
theorem C6_numeric_bounds (env : Env) (param : ParamInfo) (value : PyVal) :
    (∀ mx, param.max_val = some mx →
      (pyFloat env value = none →
        maxValError env param value = some (mustBeNumberMsg value))
      ∧ ∀ q, pyFloat env value = some q →
          ((q ≤ mx → maxValError env param value = none)
           ∧ (q > mx →
              maxValError env param value = some (shouldBeLeMsg value mx))))
    ∧ (∀ mn, param.min_val = some mn →
      (pyFloat env value = none →
        minValError env param value = some (mustBeNumberMsg value))
      ∧ ∀ q, pyFloat env value = some q →
          ((mn ≤ q → minValError env param value = none)
           ∧ (q < mn →
              minValError env param value = some (shouldBeGeMsg value mn))))
    ∧ (∀ mx, mustBeNumberMsg value ≠ shouldBeLeMsg value mx)
    ∧ (∀ mn, mustBeNumberMsg value ≠ shouldBeGeMsg value mn)
    ∧ (∀ ws e, typecheckError param value = none →
        wsTypeError env param value ws = none →
        allowedValuesError param value = none →
        maxValError env param value = some e →
        _validate_param_value env param value ws = .ok (some e))
    ∧ (∀ ws e, typecheckError param value = none →
        wsTypeError env param value ws = none →
        allowedValuesError param value = none →
        maxValError env param value = none →
        minValError env param value = some e →
        _validate_param_value env param value ws = .ok (some e)) := by
  refine ⟨?_, ?_, ?_, ?_, ?_, ?_⟩
  · intro mx hmx
    refine ⟨fun hn => by simp [maxValError, hmx, hn], fun q hq => ⟨?_, ?_⟩⟩
    · intro hle
      simp only [maxValError, hmx, hq]
      rw [if_neg (not_lt.mpr hle)]
    · intro hgt
      simp only [maxValError, hmx, hq]
      rw [if_pos hgt]
  · intro mn hmn
    refine ⟨fun hn => by simp [minValError, hmn, hn], fun q hq => ⟨?_, ?_⟩⟩
    · intro hle
      simp only [minValError, hmn, hq]
      rw [if_neg (not_lt.mpr hle)]
    · intro hlt
      simp only [minValError, hmn, hq]
      rw [if_pos hlt]
  · intro mx h
    unfold mustBeNumberMsg shouldBeLeMsg at h
    exact append_mustBeNumber_ne_le ("Given value " ++ value.pyStr)
      (numStr mx) (h.trans (String.append_assoc _ _ _))
  · intro mn h
    unfold mustBeNumberMsg shouldBeGeMsg at h
    exact append_mustBeNumber_ne_ge ("Given value " ++ value.pyStr)
      (numStr mn) (h.trans (String.append_assoc _ _ _))
  · intro ws e h1 h2 h3 h4
    simp [_validate_param_value, h1, h2, h3, h4]
  · intro ws e h1 h2 h3 h4 h5
    simp [_validate_param_value, h1, h2, h3, h4, h5]

/-- A float descriptor bounded to the inclusive range 0..10. -/
def boundParam : ParamInfo :=
  { textParam "t" with type := "float", min_val := some 0, max_val := some 10 }

theorem C6_numeric_bounds_witness :
    maxValError env0 boundParam (PyVal.int 10) = none
    ∧ maxValError env0 boundParam (PyVal.int 11) =
        some (shouldBeLeMsg (PyVal.int 11) 10)
    ∧ minValError env0 boundParam (PyVal.int 0) = none
    ∧ minValError env0 boundParam (PyVal.int (-1)) =
        some (shouldBeGeMsg (PyVal.int (-1)) 0)
    ∧ maxValError env0 boundParam (PyVal.str "abc") =
        some (mustBeNumberMsg (PyVal.str "abc"))
    ∧ mustBeNumberMsg (PyVal.str "abc") ≠
        shouldBeLeMsg (PyVal.str "abc") 10 :=
  ⟨(((C6_numeric_bounds env0 boundParam (PyVal.int 10)).1 10 rfl).2
      ((10 : ℤ) : ℚ) rfl).1 (by norm_num),
   (((C6_numeric_bounds env0 boundParam (PyVal.int 11)).1 10 rfl).2
      ((11 : ℤ) : ℚ) rfl).2 (by norm_num),
   (((C6_numeric_bounds env0 boundParam (PyVal.int 0)).2.1 0 rfl).2
      ((0 : ℤ) : ℚ) rfl).1 (by norm_num),
   (((C6_numeric_bounds env0 boundParam (PyVal.int (-1))).2.1 0 rfl).2
      (((-1) : ℤ) : ℚ) rfl).2 (by norm_num),
   ((C6_numeric_bounds env0 boundParam (PyVal.str "abc")).1 10 rfl).1 rfl,
   (C6_numeric_bounds env0 boundParam (PyVal.str "abc")).2.2.1 10⟩

/-!
## Claim C5 (confirmed)
-/

theorem pyFloat_lookup_swap (env : Env)
    (f : String → PyVal → Except String String) (value : PyVal) :
    pyFloat { env with lookup := f } value = pyFloat env value := by
  cases value <;> rfl

theorem wsTypeError_none_of_not_ref (env : Env) (param : ParamInfo)
    (value : PyVal) (ws : String)
    (h : param.allowed_types = none ∨ param.is_output = true) :
    wsTypeError env param value ws = none := by
  cases hat : param.allowed_types with
  | none => simp [wsTypeError, hat]
  | some ts =>
    cases h with
    | inl h0 => rw [h0] at hat; cases hat
    | inr h0 => simp [wsTypeError, hat, h0]

/-- Claim C5: the reference lookup is consulted exactly for descriptors
with `allowed_types` set and `is_output` false (otherwise the outcome is
independent of the lookup collaborator); a raised lookup is converted to a
descriptive error naming the value and the cause instead of propagating;
and on success an error is returned iff the reported type string matches no
pattern of `allowed_types`. -/
theorem C5_reference_lookup (env : Env) (param : ParamInfo) (value : PyVal)
    (ws : String) (hscalar : typecheckError param value = none) :
    ((param.allowed_types = none ∨ param.is_output = true) →
      wsTypeError env param value ws = none
      ∧ ∀ f, _validate_param_value { env with lookup := f } param value ws =
          _validate_param_value env param value ws)
    ∧ ∀ ts, param.allowed_types = some ts → param.is_output = false →
        ((∀ e, env.lookup ws value = .error e →
          _validate_param_value env param value ws =
            .ok (some ("Data object named " ++ value.pyStr ++
              " not found with this Narrative. (additional info: " ++
              e ++ ")")))
        ∧ ∀ t, env.lookup ws value = .ok t →
            (((ts.any fun pat => env.reMatch pat t) = false →
              _validate_param_value env param value ws =
                .ok (some ("Type of data object, " ++ t ++
                  ", does not match allowed types")))
            ∧ ((ts.any fun pat => env.reMatch pat t) = true →
                wsTypeError env param value ws = none))) := by
  constructor
  · intro h
    refine ⟨wsTypeError_none_of_not_ref env param value ws h, fun f => ?_⟩
    have hws1 : wsTypeError { env with lookup := f } param value ws = none :=
      wsTypeError_none_of_not_ref _ param value ws h
    have hws2 : wsTypeError env param value ws = none :=
      wsTypeError_none_of_not_ref env param value ws h
    simp [_validate_param_value, hscalar, hws1, hws2,
      pyFloat_lookup_swap, maxValError, minValError]
  · intro ts hts hout
    constructor
    · intro e he
      have hws : wsTypeError env param value ws =
          some ("Data object named " ++ value.pyStr ++
            " not found with this Narrative. (additional info: " ++
            e ++ ")") := by
        simp [wsTypeError, hts, hout, he]
      simp [_validate_param_value, hscalar, hws]
    · intro t ht
      constructor
      · intro hany
        have hws : wsTypeError env param value ws =
            some ("Type of data object, " ++ t ++
              ", does not match allowed types") := by
          simp [wsTypeError, hts, hout, ht, hany]
        simp [_validate_param_value, hscalar, hws]
      · intro hany
        simp [wsTypeError, hts, hout, ht, hany]

/-- A non-output reference descriptor accepting objects of type "TypeA". -/
def refParam : ParamInfo := { textParam "reads" with allowed_types := some ["TypeA"] }

/-- The same descriptor flagged as an output. -/
def refOutParam : ParamInfo := { refParam with is_output := true }

/-- An environment whose lookup reports type "TypeA" and whose regex engine
matches a pattern iff it equals the string. -/
def envLookup : Env :=
  { env0 with
    lookup := fun _ _ => .ok "TypeA"
    reMatch := fun pat s => pat == s }

/-- `envLookup` with a lookup that reports type "TypeB" instead. -/
def envLookupB : Env := { envLookup with lookup := fun _ _ => .ok "TypeB" }

theorem C5_reference_lookup_witness :
    wsTypeError envLookup refOutParam (PyVal.str "lib1") "ws1" = none
    ∧ _validate_param_value { envLookup with lookup := fun _ _ => .error "boom" }
        refOutParam (PyVal.str "lib1") "ws1" =
      _validate_param_value envLookup refOutParam (PyVal.str "lib1") "ws1"
    ∧ _validate_param_value env0 refParam (PyVal.str "lib1") "ws1" =
        .ok (some ("Data object named " ++ (PyVal.str "lib1").pyStr ++
          " not found with this Narrative. (additional info: " ++
          "no workspace" ++ ")"))
    ∧ wsTypeError envLookup refParam (PyVal.str "lib1") "ws1" = none
    ∧ _validate_param_value envLookupB refParam (PyVal.str "lib1") "ws1" =
        .ok (some ("Type of data object, " ++ "TypeB" ++
          ", does not match allowed types")) :=
  ⟨((C5_reference_lookup envLookup refOutParam (PyVal.str "lib1") "ws1"
      rfl).1 (Or.inr rfl)).1,
   ((C5_reference_lookup envLookup refOutParam (PyVal.str "lib1") "ws1"
      rfl).1 (Or.inr rfl)).2 (fun _ _ => .error "boom"),
   ((C5_reference_lookup env0 refParam (PyVal.str "lib1") "ws1"
      rfl).2 ["TypeA"] rfl rfl).1 "no workspace" rfl,
   (((C5_reference_lookup envLookup refParam (PyVal.str "lib1") "ws1"
      rfl).2 ["TypeA"] rfl rfl).2 "TypeA" rfl).2 (by decide),
   (((C5_reference_lookup envLookupB refParam (PyVal.str "lib1") "ws1"
      rfl).2 ["TypeA"] rfl rfl).2 "TypeB" rfl).1 (by decide)⟩

/-!
## Claim C7 (confirmed)
-/

theorem element_errs_nil_of_all_ok (env : Env) (param : ParamInfo)
    (ws : String) :
    ∀ vs, (∀ v ∈ vs, _validate_param_value env param v ws = .ok none) →
      element_errs env param ws vs = []
  | [], _ => rfl
  | v :: rest, hall => by
    have hv := hall v (by simp)
    unfold element_errs
    rw [hv]
    exact element_errs_nil_of_all_ok env param ws rest
      fun x hx => hall x (by simp [hx])

/-- Claim C7: with `allow_multiple` set and a sequence value, every element
is validated independently by the scalar validator; the parameter yields no
error when every element validates, and otherwise exactly one aggregated
message, the comma-join of the per-element errors (so a single invalid
element yields exactly that element's failure reason). -/
theorem C7_multiple_aggregation (env : Env) (param : ParamInfo)
    (ws : String) (vs : List PyVal)
    (hm : param.allow_multiple = true)
    (hr : param.regex_constraint = none) :
    _check_parameter env param (PyVal.list vs) ws =
      .ok (if (element_errs env param ws vs).length != 0
           then some (String.intercalate ", " (element_errs env param ws vs))
           else none)
    ∧ ((∀ v ∈ vs, _validate_param_value env param v ws = .ok none) →
        _check_parameter env param (PyVal.list vs) ws = .ok none)
    ∧ (∀ e, element_errs env param ws vs = [e] →
        _check_parameter env param (PyVal.list vs) ws = .ok (some e)) := by
  have hc := collect_element_errors_eq env param ws hr vs
  refine ⟨?_, ?_, ?_⟩
  · simp [_check_parameter, hm, hc]
    split <;> rfl
  · intro hall
    have he := element_errs_nil_of_all_ok env param ws vs hall
    simp [_check_parameter, hm, hc, he]
  · intro e he
    simp [_check_parameter, hm, hc, he]
    rfl

/-- An int-typed descriptor accepting a sequence of values. -/
def multiParam : ParamInfo :=
  { textParam "m" with type := "int", allow_multiple := true }

theorem C7_multiple_aggregation_witness :
    element_errs env0 multiParam "ws1"
        [PyVal.int 1, PyVal.str "x", PyVal.int 2] =
      ["Given value x is not an int"]
    ∧ _check_parameter env0 multiParam
        (PyVal.list [PyVal.int 1, PyVal.str "x", PyVal.int 2]) "ws1" =
      .ok (some "Given value x is not an int")
    ∧ _check_parameter env0 multiParam
        (PyVal.list [PyVal.int 1, PyVal.int 2]) "ws1" = .ok none :=
  ⟨rfl,
   (C7_multiple_aggregation env0 multiParam "ws1"
      [PyVal.int 1, PyVal.str "x", PyVal.int 2] rfl rfl).2.2
     "Given value x is not an int" rfl,
   (C7_multiple_aggregation env0 multiParam "ws1"
      [PyVal.int 1, PyVal.int 2] rfl rfl).2.1
     (by
       intro v hv
       simp at hv
       rcases hv with h | h <;> subst h <;> rfl)⟩

/-!
## Claim C3 (corrected)
-/

/-- Claim C3 says the Builder returns descriptors in the original
specification order for internal use.  It does not: `_method_params`
returns only the sorted arrangement.  With an optional parameter "a"
followed by a required parameter "b", the Builder emits ["b", "a"], not
the original ["a", "b"]. -/
theorem C3_not_original_order :
    ((_method_params [rawText "a" 1, rawText "b" 0]).map fun p => p.id) =
      ["b", "a"]
    ∧ (([rawText "a" 1, rawText "b" 0].map build_p_info).map fun p => p.id) =
      ["a", "b"]
    ∧ (["b", "a"] : List String) ≠ ["a", "b"] :=
  ⟨rfl, rfl, by decide⟩

/-- Claim C3 amended: the Builder returns one list - a permutation of the
per-parameter descriptors, stably sorted required-first then
non-output-first - and this very list is what the validation entry point
consumes (its aggregated error reports are phrased over it). -/
theorem C3_builder_sorted (ps : List RawParam) :
    (_method_params ps).Perm (ps.map build_p_info)
    ∧ List.Sorted paramLeP (_method_params ps)
    ∧ ∀ (env : Env) (specs : String → String → Option (List RawParam))
        (mid tag : String) (kwargs : List (String × PyVal)),
        check_method specs mid tag = Except.ok () →
        missing_of (_method_params ((specs tag mid).getD [])) kwargs ≠ [] →
        run_method env specs mid tag none kwargs =
          .error (missingParamsMsg
            (missing_of (_method_params ((specs tag mid).getD [])) kwargs)
            mid tag) :=
  ⟨List.perm_insertionSort _ _, List.sorted_insertionSort _ _,
   fun env specs mid tag kwargs hok h =>
     run_method_eq_missing env specs mid tag kwargs hok h⟩

/-- A required output-named raw parameter. -/
def rawOutReq : RawParam :=
  { rawText "a" 0 with
    text_options := some
      { is_output_name := some true, valid_ws_types := none,
        validate_as := none, min_float := none, min_int := none,
        max_float := none, max_int := none, regex_constraint := none } }

/-- A store whose released method "m" declares the required output "a"
followed by the required input "b". -/
def c3specs : String → String → Option (List RawParam) :=
  fun tag mid =>
    if tag == "release" && mid == "m" then some [rawOutReq, rawText "b" 0]
    else none

theorem C3_builder_sorted_witness :
    (_method_params [rawOutReq, rawText "b" 0]).Perm
        ([rawOutReq, rawText "b" 0].map build_p_info)
    ∧ run_method env0 c3specs "m" "release" none [] =
        .error (missingParamsMsg ["b", "a"] "m" "release") :=
  ⟨(C3_builder_sorted [rawOutReq, rawText "b" 0]).1,
   (C3_builder_sorted [rawOutReq, rawText "b" 0]).2.2 env0 c3specs "m"
     "release" [] rfl (by decide)⟩

/-!
## Claim C9 (corrected)
-/

/-- A raw parameter whose `text_options` set both the output flag and the
allowed workspace types. -/
def rawBoth : RawParam :=
  { rawText "o" 1 with
    text_options := some
      { is_output_name := some true, valid_ws_types := some ["KBaseFoo.Bar"],
        validate_as := none, min_float := none, min_int := none,
        max_float := none, max_int := none, regex_constraint := none } }

/-- Claim C9 says every descriptor the Builder produces carries
`allowed_types` only if `is_output` is false.  The Builder copies the two
raw fields independently, so a raw parameter setting both produces a
descriptor that is an output and still carries `allowed_types`. -/
theorem C9_builder_invariant_fails :
    (build_p_info rawBoth).is_output = true
    ∧ (build_p_info rawBoth).allowed_types = some ["KBaseFoo.Bar"]
    ∧ _method_params [rawBoth] = [build_p_info rawBoth] :=
  ⟨rfl, rfl, rfl⟩

/-- Claim C9 amended: the Builder does not enforce the invariant (a
descriptor can carry `allowed_types` with `is_output` true), but output
descriptors are still never subjected to the reference lookup: for an
output descriptor the workspace check is silent and the validation outcome
is independent of the lookup collaborator. -/
theorem C9_output_no_lookup (param : ParamInfo) (value : PyVal)
    (ws : String) (e1 e2 : Env) (h : param.is_output = true)
    (_hrm : e1.reMatch = e2.reMatch)
    (hfs : e1.float_of_str = e2.float_of_str) :
    wsTypeError e1 param value ws = none
    ∧ _validate_param_value e1 param value ws =
        _validate_param_value e2 param value ws := by
  have h1 : wsTypeError e1 param value ws = none :=
    wsTypeError_none_of_not_ref e1 param value ws (Or.inr h)
  have h2 : wsTypeError e2 param value ws = none :=
    wsTypeError_none_of_not_ref e2 param value ws (Or.inr h)
  have hpf : pyFloat e1 value = pyFloat e2 value := by
    cases value <;> simp [pyFloat, hfs]
  refine ⟨h1, ?_⟩
  simp [_validate_param_value, h1, h2, maxValError, minValError, hpf]

theorem C9_output_no_lookup_witness :
    wsTypeError env0 refOutParam (PyVal.str "obj") "ws1" = none
    ∧ _validate_param_value env0 refOutParam (PyVal.str "obj") "ws1" =
        _validate_param_value { env0 with lookup := fun _ _ => .ok "TypeA" }
          refOutParam (PyVal.str "obj") "ws1" :=
  C9_output_no_lookup refOutParam (PyVal.str "obj") "ws1" env0
    { env0 with lookup := fun _ _ => .ok "TypeA" } rfl rfl rfl

/-!
## Claim C1 (corrected)
-/

/-- Claim C1 says the entry point surfaces the concatenation of
missing-parameter, unknown-parameter and value-check errors in one
aggregated list; in particular, with one required parameter missing and one
unknown key supplied, both errors should appear.  The code instead raises
on the missing parameter alone: the resulting message names no unknown
parameter and does not mention the stray key. -/
theorem C1_no_cross_category_aggregation :
    run_method env0 allTagSpecs "m" "release" none
        [("extra", PyVal.str "x")] =
      .error (missingParamsMsg ["a"] "m" "release")
    ∧ ¬ ("Unknown parameters".data <:+:
        (missingParamsMsg ["a"] "m" "release").data)
    ∧ ¬ ("extra".data <:+: (missingParamsMsg ["a"] "m" "release").data) :=
  ⟨rfl, by decide, by decide⟩

/-- Claim C1 amended: errors are aggregated within each category (all
missing ids in one raised message, all unknown keys in one, all
per-parameter value errors in one), but the entry point raises at the
first failing category - missing-parameter errors preempt unknown-parameter
errors, which preempt value errors - rather than concatenating across
categories. -/
theorem C1_run_method_phased (env : Env)
    (specs : String → String → Option (List RawParam))
    (method_id tag : String) (kwargs : List (String × PyVal))
    (hok : check_method specs method_id tag = .ok ()) :
    (missing_of (_method_params ((specs tag method_id).getD [])) kwargs ≠ [] →
      run_method env specs method_id tag none kwargs =
        .error (missingParamsMsg
          (missing_of (_method_params ((specs tag method_id).getD [])) kwargs)
          method_id tag))
    ∧ (missing_of (_method_params ((specs tag method_id).getD [])) kwargs = [] →
       extra_of (_method_params ((specs tag method_id).getD [])) kwargs ≠ [] →
       run_method env specs method_id tag none kwargs =
         .error (unknownParamsMsg
           (extra_of (_method_params ((specs tag method_id).getD [])) kwargs)
           method_id tag))
    ∧ (missing_of (_method_params ((specs tag method_id).getD [])) kwargs = [] →
       extra_of (_method_params ((specs tag method_id).getD [])) kwargs = [] →
       run_method env specs method_id tag none kwargs =
         (match collect_param_errors env env.workspace kwargs
             (_method_params ((specs tag method_id).getD [])) with
          | .error e => .error e
          | .ok param_errors =>
            if param_errors.length != 0 then
              .error (paramErrorsMsg param_errors)
            else .ok ())) :=
  ⟨fun h => run_method_eq_missing env specs method_id tag kwargs hok h,
   fun h1 h2 => run_method_eq_unknown env specs method_id tag kwargs hok h1 h2,
   fun h1 h2 => run_method_eq_values env specs method_id tag kwargs hok h1 h2⟩

theorem C1_run_method_phased_witness :
    run_method env0 allTagSpecs "m" "release" none [] =
      .error (missingParamsMsg ["a"] "m" "release")
    ∧ run_method env0 allTagSpecs "m" "release" none
        [("a", PyVal.str "v"), ("zzz", PyVal.str "w")] =
      .error (unknownParamsMsg ["zzz"] "m" "release")
    ∧ run_method env0 allTagSpecs "m" "release" none
        [("a", PyVal.str "v")] = .ok () :=
  ⟨(C1_run_method_phased env0 allTagSpecs "m" "release" [] rfl).1
     (by decide),
   (C1_run_method_phased env0 allTagSpecs "m" "release"
      [("a", PyVal.str "v"), ("zzz", PyVal.str "w")] rfl).2.1
     (by decide) (by decide),
   ((C1_run_method_phased env0 allTagSpecs "m" "release"
      [("a", PyVal.str "v")] rfl).2.2 rfl rfl).trans rfl⟩

/-!
## Claim C10 (confirmed)
-/

/-- Claim C10: the presence check tests truthiness, not key membership; a
required descriptor whose supplied value is falsy (0, 0.0, "", False) is
reported missing, and the run is indistinguishable from one where the key
was absent from the arguments altogether. -/
theorem C10_presence_truthiness (env : Env)
    (specs : String → String → Option (List RawParam))
    (method_id tag : String) (kwargs : List (String × PyVal))
    (p : ParamInfo) (v : PyVal)
    (hok : check_method specs method_id tag = .ok ())
    (hp : p ∈ _method_params ((specs tag method_id).getD []))
    (hreq : p.optional = false)
    (hkv : List.lookup p.id kwargs = some v)
    (hfalsy : v.truthy = false)
    (hnd : (kwargs.map Prod.fst).Nodup) :
    p.id ∈ missing_of (_method_params ((specs tag method_id).getD [])) kwargs
    ∧ run_method env specs method_id tag none kwargs =
      .error (missingParamsMsg
        (missing_of (_method_params ((specs tag method_id).getD [])) kwargs)
        method_id tag)
    ∧ run_method env specs method_id tag none kwargs =
      run_method env specs method_id tag none
        (kwargs.eraseP fun kv => kv.1 == p.id) := by
  have hmem : p.id ∈
      missing_of (_method_params ((specs tag method_id).getD [])) kwargs := by
    unfold missing_of
    refine List.mem_map.mpr ⟨p, List.mem_filter.mpr ⟨hp, ?_⟩, rfl⟩
    rw [hreq, hkv]
    simp [truthyOpt, hfalsy]
  have hne := List.ne_nil_of_mem hmem
  have h1 := run_method_eq_missing env specs method_id tag kwargs hok hne
  have heq : missing_of (_method_params ((specs tag method_id).getD []))
      (kwargs.eraseP fun kv => kv.1 == p.id) =
      missing_of (_method_params ((specs tag method_id).getD [])) kwargs :=
    missing_of_eraseP _ kwargs p.id
      (by rw [hkv]; simp [truthyOpt, hfalsy]) hnd
  have hne2 : missing_of (_method_params ((specs tag method_id).getD []))
      (kwargs.eraseP fun kv => kv.1 == p.id) ≠ [] := by
    rw [heq]; exact hne
  have h2 := run_method_eq_missing env specs method_id tag
    (kwargs.eraseP fun kv => kv.1 == p.id) hok hne2
  exact ⟨hmem, h1, by rw [h1, h2, heq]⟩

theorem C10_presence_truthiness_witness :
    "a" ∈ missing_of
        (_method_params ((allTagSpecs "release" "m").getD []))
        [("a", PyVal.int 0)]
    ∧ run_method env0 allTagSpecs "m" "release" none
        [("a", PyVal.int 0)] =
      .error (missingParamsMsg ["a"] "m" "release")
    ∧ run_method env0 allTagSpecs "m" "release" none
        [("a", PyVal.int 0)] =
      run_method env0 allTagSpecs "m" "release" none
        ([("a", PyVal.int 0)].eraseP fun kv => kv.1 == "a") :=
  C10_presence_truthiness env0 allTagSpecs "m" "release"
    [("a", PyVal.int 0)] (build_p_info (rawText "a" 0)) (PyVal.int 0)
    rfl (List.Mem.head _) rfl rfl rfl (by decide)

end Narrative
